import Mathlib

/-!
CamelotRenderer: render-target attachment list and buffer-view keys

A shallow embedding of

* `CamelotRenderer/Include/CmRenderTexture.h` (class `MultiRenderTarget`), and
* `CamelotRenderer/Source/CmGenericBufferView.cpp` (class `GenericBufferView`).

Conventions of the embedding.

* `UINT32` values are natural numbers below `UINT32_RANGE = 2^32`; the
  increment `++i` of a `UINT32` counter is `(i + 1) % UINT32_RANGE`, and the cast
  `(UINT32)mBoundSurfaces.size()` is `length % UINT32_RANGE`.
* A `RenderTexture*` is an address, a natural number; `0` is the null pointer,
  which is what `push_back(0)` and `mBoundSurfaces[attachment] = 0` store.
* `mBoundSurfaces` (a `vector<RenderTexture*>`) is a `List RenderTexturePtr`.
* A member function that is not `const` takes the object and returns the
  object after the call together with what the call produced. An exception
  that leaves the function is an `Outcome.threw`; the object keeps every
  write made before the throw (the source has no handler and no rollback).
* The two pure virtual hooks `bindSurfaceImpl` and `unbindSurfaceImpl` are the
  fields of a `Backend`. A hook reads `mBoundSurfaces`, updates the state of
  the backend and returns or throws. In the two source files the only writes
  to `mBoundSurfaces` are those of `bindSurface` and `unbindSurface`, and the
  embedding keeps it so: a hook does not write the list.
* `hookLog` is a ghost field: every call site of a hook appends the call, with
  the arguments passed and the list as it is at that moment.
* The growth loop of `bindSurface` runs on fuel, one unit per iteration; a
  result `none` means the loop was still running when the fuel ran out.
-/

namespace CamelotEngine

/-! ## Machine integers and pointers -/

/-- Number of values of the type `UINT32`. -/
def UINT32_RANGE : Nat := 2 ^ 32

/-- Address of a `RenderTexture`; `0` is the null pointer. -/
abbrev RenderTexturePtr := Nat

/-- Exception codes. `ERR_INVALIDPARAMS` is the one named in the documentation of
`bindSurface`; `ERR_OTHER` stands for any other code a backend may throw. -/
inductive ExceptionCode where
  | ERR_INVALIDPARAMS
  | ERR_OTHER (code : Nat)
  deriving DecidableEq, Repr

/-- How a call ended: it returned, or an exception left it. -/
inductive Outcome where
  | returned
  | threw (e : ExceptionCode)
  deriving DecidableEq, Repr

/-! ## MultiRenderTarget -/

/-- One invocation of a backend hook: the list the hook sees, and its arguments. -/
inductive HookCall where
  | bindSurfaceImpl (seen : List RenderTexturePtr) (attachment : Nat) (target : RenderTexturePtr)
  | unbindSurfaceImpl (seen : List RenderTexturePtr) (attachment : Nat)
  deriving DecidableEq, Repr

/-- The pure virtual members of `MultiRenderTarget` (lines 151-154), supplied by a
concrete backend with state `β`. -/
structure Backend (β : Type) where
  bindSurfaceImpl : List RenderTexturePtr → β → Nat → RenderTexturePtr → β × Outcome
  unbindSurfaceImpl : List RenderTexturePtr → β → Nat → β × Outcome

/-- State of a `MultiRenderTarget` object: the member `mBoundSurfaces`, the state of
the backend behind the hooks, and the ghost log of hook invocations. -/
structure MultiRenderTarget (β : Type) where
  mBoundSurfaces : List RenderTexturePtr
  backend : β
  hookLog : List HookCall
  deriving DecidableEq

/-- Modelled from the spec: the object right after construction. The body of the
constructor `MultiRenderTarget(const String &name)` (declared at line 98) is not
under src/; the spec says the attachment list starts empty (size 0), which is
also what the default construction of the member `mBoundSurfaces` (line 149)
gives. -/
def MultiRenderTarget.fresh {β : Type} (b : β) : MultiRenderTarget β :=
  { mBoundSurfaces := [], backend := b, hookLog := [] }

/-- The loop of `bindSurface` (lines 111-114):
`for (UINT32 i = ...; i <= attachment; ++i) mBoundSurfaces.push_back(0);`
started with counter `i` and list `l`. One unit of fuel per iteration. -/
def growLoop (attachment : Nat) : Nat → Nat → List RenderTexturePtr → Option (List RenderTexturePtr)
  | 0, i, l => if i ≤ attachment then none else some l
  | fuel + 1, i, l =>
    if i ≤ attachment then growLoop attachment fuel ((i + 1) % UINT32_RANGE) (l ++ [0])
    else some l

/-- Method `MultiRenderTarget::bindSurface` (lines 109-118): the growth loop, the
assignment `mBoundSurfaces[attachment] = target`, then the hook. The outcome of
the call is the outcome of the hook; the list written before the hook ran stays
written. When the loop has ended `attachment` is inside the list (theorem
`bindSurface_attachment_lt`), so the unchecked `operator[]` is `List.set`. -/
def bindSurface {β : Type} (be : Backend β) (fuel : Nat) (self : MultiRenderTarget β)
    (attachment : Nat) (target : RenderTexturePtr) : Option (MultiRenderTarget β × Outcome) :=
  match growLoop attachment fuel (self.mBoundSurfaces.length % UINT32_RANGE) self.mBoundSurfaces with
  | none => none
  | some grown =>
    let assigned := grown.set attachment target
    let r := be.bindSurfaceImpl assigned self.backend attachment target
    some ({ mBoundSurfaces := assigned, backend := r.1,
            hookLog := self.hookLog ++ [HookCall.bindSurfaceImpl assigned attachment target] }, r.2)

/-- Method `MultiRenderTarget::unbindSurface` (lines 122-127). The assignment is
guarded by `attachment < (UINT32)size()`, so it is inside the list. -/
def unbindSurface {β : Type} (be : Backend β) (self : MultiRenderTarget β)
    (attachment : Nat) : MultiRenderTarget β × Outcome :=
  let updated :=
    if attachment < self.mBoundSurfaces.length % UINT32_RANGE then self.mBoundSurfaces.set attachment 0
    else self.mBoundSurfaces
  let r := be.unbindSurfaceImpl updated self.backend attachment
  ({ mBoundSurfaces := updated, backend := r.1,
     hookLog := self.hookLog ++ [HookCall.unbindSurfaceImpl updated attachment] }, r.2)

/-- Method `MultiRenderTarget::getBoundSurfaceList` (line 139). -/
def getBoundSurfaceList {β : Type} (self : MultiRenderTarget β) : List RenderTexturePtr :=
  self.mBoundSurfaces

/-- Result of `getBoundSurface`: the pointer returned, or the failed assertion. -/
inductive Lookup where
  | value (p : RenderTexturePtr)
  | assertionFailed
  deriving DecidableEq, Repr

/-- Method `MultiRenderTarget::getBoundSurface` (lines 142-146), with the assertion
compiled in: `assert (index < mBoundSurfaces.size())`, then the element. The
function is not `const`, so the object is returned as well. -/
def getBoundSurface {β : Type} (self : MultiRenderTarget β) (index : Nat) :
    MultiRenderTarget β × Lookup :=
  if h : index < self.mBoundSurfaces.length then (self, Lookup.value (self.mBoundSurfaces[index]))
  else (self, Lookup.assertionFailed)

/-- The states an object can be in: the state after construction, and every state
a returning or throwing call of `bindSurface`, `unbindSurface` or
`getBoundSurface` with `UINT32` arguments leaves behind. -/
inductive Reachable {β : Type} (be : Backend β) : MultiRenderTarget β → Prop where
  | fresh (b : β) : Reachable be (MultiRenderTarget.fresh b)
  | bind {s : MultiRenderTarget β} {r : MultiRenderTarget β × Outcome} (fuel attachment : Nat)
      (target : RenderTexturePtr) : Reachable be s → attachment < UINT32_RANGE →
      bindSurface be fuel s attachment target = some r → Reachable be r.1
  | unbind {s : MultiRenderTarget β} (attachment : Nat) : Reachable be s →
      attachment < UINT32_RANGE → Reachable be (unbindSurface be s attachment).1
  | get {s : MultiRenderTarget β} (index : Nat) : Reachable be s →
      index < UINT32_RANGE → Reachable be (getBoundSurface s index).1

/-- Modelled from the spec: the enumeration `PixelFormat`, whose declaration is not
under src/: the unknown sentinel `PF_UNKNOWN`, and every other format. -/
inductive PixelFormat where
  | PF_UNKNOWN
  | PF_OTHER (code : Nat)
  deriving DecidableEq, Repr

/-- Method `MultiRenderTarget::suggestPixelFormat` (line 135), a `const` member. -/
def suggestPixelFormat {β : Type} (_self : MultiRenderTarget β) : PixelFormat :=
  PixelFormat.PF_UNKNOWN

/-- Modelled from the spec: the error kinds of section 7 of the spec. -/
inductive ErrorKind where
  | InvalidParameter
  | UnsupportedOperation
  | PreconditionViolation
  deriving DecidableEq, Repr

/-- Modelled from the spec: `MultiRenderTarget::copyContentsToMemory`, declared at
line 132 with its body not under src/. The spec: it always fails with an
UnsupportedOperation-class error; the comment of lines 129-131 calls it an error
throwing implementation. The types `PixelData` and `FrameBuffer` are not under
src/ either and are parameters. -/
def copyContentsToMemory {β PixelData FrameBuffer : Type} (self : MultiRenderTarget β)
    (_dst : PixelData) (_buffer : FrameBuffer) : MultiRenderTarget β × Except ErrorKind Unit :=
  (self, Except.error ErrorKind.UnsupportedOperation)

/-- One call on a `MultiRenderTarget`, among the members that read or write
`mBoundSurfaces` and `suggestPixelFormat`. -/
inductive Op where
  | bindSurface (attachment : Nat) (target : RenderTexturePtr)
  | unbindSurface (attachment : Nat)
  | getBoundSurface (index : Nat)
  | getBoundSurfaceList
  | suggestPixelFormat
  deriving DecidableEq, Repr

/-- The object after one call, or `none` when the call is a `bindSurface` still in
its loop when the fuel runs out. The `const` members `getBoundSurfaceList` and
`suggestPixelFormat` leave the object as it is; so does `getBoundSurface`, also
when its assertion fails. -/
def applyOp {β : Type} (be : Backend β) (fuel : Nat) (s : MultiRenderTarget β) :
    Op → Option (MultiRenderTarget β)
  | Op.bindSurface attachment target => (bindSurface be fuel s attachment target).map Prod.fst
  | Op.unbindSurface attachment => some (unbindSurface be s attachment).1
  | Op.getBoundSurface index => some (getBoundSurface s index).1
  | Op.getBoundSurfaceList => some s
  | Op.suggestPixelFormat => some s

/-- The object after a sequence of calls, each with the given fuel. -/
def runOps {β : Type} (be : Backend β) (fuel : Nat) :
    MultiRenderTarget β → List Op → Option (MultiRenderTarget β)
  | s, [] => some s
  | s, op :: ops =>
    match applyOp be fuel s op with
    | none => none
    | some s1 => runOps be fuel s1 ops

/-- The largest attachment index passed to `bindSurface` in a sequence of calls;
`none` when the sequence has no `bindSurface`. -/
def largestBound : List Op → Option Nat
  | [] => none
  | Op.bindSurface attachment _ :: ops =>
    match largestBound ops with
    | none => some attachment
    | some m => some (max attachment m)
  | _ :: ops => largestBound ops

/-- Zero, or one more than the largest attachment index passed to `bindSurface`. -/
def expectedSize (ops : List Op) : Nat :=
  match largestBound ops with
  | none => 0
  | some m => m + 1

/-! ## RenderTexture -/

/-- The data members of `RenderTexture` (lines 62-70). The enumerations
`TextureType` and `DepthStencilFormat` are not under src/ and are given by the
number of the enumerator; `TexturePtr` and `DepthStencilBufferPtr` are shared
pointers, given by the address they hold, `0` for an empty one. -/
structure RenderTexture where
  mType : Nat
  mFormat : PixelFormat
  mDepthStencilFormat : Nat
  mFace : Nat
  mNumFaces : Nat
  mMipLevel : Nat
  mTexture : Nat
  mDepthStencilBuffer : Nat
  deriving DecidableEq, Repr

/-- Method `RenderTexture::requiresTextureFlipping` (line 59), a `const` member. -/
def RenderTexture.requiresTextureFlipping (_self : RenderTexture) : Bool :=
  false

/-! ### Backends used to evaluate the operations on concrete inputs -/

/-- A backend whose hooks always return. -/
def acceptAll : Backend Unit :=
  { bindSurfaceImpl := fun _ b _ _ => (b, Outcome.returned),
    unbindSurfaceImpl := fun _ b _ => (b, Outcome.returned) }

/-- A backend whose state is the number of hook invocations made on it so far:
each hook adds one and returns. -/
def countingBackend : Backend Nat :=
  { bindSurfaceImpl := fun _ n _ _ => (n + 1, Outcome.returned),
    unbindSurfaceImpl := fun _ n _ => (n + 1, Outcome.returned) }

/-- Modelled from the spec: the consistency check of `bindSurfaceImpl`, whose
implementations are not under src/. Width, height and bit depth of the surface
behind a pointer. Surface `3` is 256x256, every other one is 512x512; all have 8
bits per channel. -/
def surfaceDesc (p : RenderTexturePtr) : Nat × Nat × Nat :=
  if p = 3 then (256, 256, 8) else (512, 512, 8)

/-- Modelled from the spec: a `bindSurfaceImpl` that rejects with
`ERR_INVALIDPARAMS` a target whose resolution or bit depth differs from that of a
surface bound at another attachment, and returns otherwise; the backends that
implement the hook are not under src/. -/
def checkingBackend : Backend Unit :=
  { bindSurfaceImpl := fun seen b attachment target =>
      if (seen.enum.all fun jp =>
            jp.1 == attachment || jp.2 == 0 || surfaceDesc jp.2 == surfaceDesc target)
      then (b, Outcome.returned) else (b, Outcome.threw ExceptionCode.ERR_INVALIDPARAMS),
    unbindSurfaceImpl := fun _ b _ => (b, Outcome.returned) }

/-! ## GenericBufferView -/

/-- The object `GenericBufferView`, which is also the `Key` of `HashFunction` and
`EqualFunction`. The class declaration (`CmGenericBufferView.h`) is not under
src/; the four members are those the member initialiser list of the constructor
(line 25) names, three `UINT32` and one `bool`. -/
structure GenericBufferView where
  mFirstElement : Nat
  mElementWidth : Nat
  mNumElements : Nat
  mRandomGpuWrite : Bool
  deriving DecidableEq, Repr

/-- Type `GenericBufferView::Key`. -/
abbrev Key := GenericBufferView

/-- The constructor `GenericBufferView::GenericBufferView` (lines 24-28). -/
def GenericBufferView.ctor (firstElement elementWidth numElements : Nat) (randomGpuWrite : Bool) :
    GenericBufferView :=
  { mFirstElement := firstElement, mElementWidth := elementWidth,
    mNumElements := numElements, mRandomGpuWrite := randomGpuWrite }

/-- The template `hash_combine(seed, v)` of `CmUtil.h`, which is not under src/, at
the two types it is used with here: the new value of `seed` after combining a
`UINT32`, and after combining a `bool`. -/
structure HashCombine where
  atUINT32 : Nat → Nat → Nat
  atBool : Nat → Bool → Nat

/-- Function `GenericBufferView::HashFunction::operator()` (lines 6-15): `seed`
starts at 0 and is passed through `hash_combine` with `mElementWidth`,
`mFirstElement`, `mNumElements`, `mRandomGpuWrite`, in this order. -/
def HashFunction (hc : HashCombine) (key : Key) : Nat :=
  let seed := 0
  let seed := hc.atUINT32 seed key.mElementWidth
  let seed := hc.atUINT32 seed key.mFirstElement
  let seed := hc.atUINT32 seed key.mNumElements
  let seed := hc.atBool seed key.mRandomGpuWrite
  seed

/-- Function `GenericBufferView::EqualFunction::operator()` (lines 17-22). -/
def EqualFunction (a b : Key) : Bool :=
  a.mElementWidth == b.mElementWidth && a.mFirstElement == b.mFirstElement
    && a.mNumElements == b.mNumElements && a.mRandomGpuWrite == b.mRandomGpuWrite

/-- A combiner used to evaluate `HashFunction` on concrete keys. -/
def sampleCombine : HashCombine :=
  { atUINT32 := fun seed v => (31 * seed + v + 7) % 2 ^ 64,
    atBool := fun seed v => (31 * seed + (if v then 1 else 0) + 7) % 2 ^ 64 }

/-- A combiner under which every key has the same hash. -/
def collidingCombine : HashCombine :=
  { atUINT32 := fun _ _ => 0, atBool := fun _ _ => 0 }

/-- An injective combiner: the new seed is the Cantor pair of the old seed and the
value combined. -/
def pairingCombine : HashCombine :=
  { atUINT32 := fun seed v => Nat.pair seed v,
    atBool := fun seed v => Nat.pair seed (if v then 1 else 0) }

/-- A value handed to `hash_combine`: a `UINT32` or a `bool`. -/
inductive FieldValue where
  | ofUINT32 (v : Nat)
  | ofBool (v : Bool)
  deriving DecidableEq, Repr

/-- One step of the fold: `hash_combine(seed, v)` at the type of `v`. -/
def combineField (hc : HashCombine) (seed : Nat) : FieldValue → Nat
  | FieldValue.ofUINT32 v => hc.atUINT32 seed v
  | FieldValue.ofBool v => hc.atBool seed v

/-- The hash as the spec words it: the left fold of `hash_combine`, from seed 0,
over the four fields in the order elementWidth, firstElement, numElements,
randomGpuWrite. -/
def hashFold (hc : HashCombine) (firstElement elementWidth numElements : Nat)
    (randomGpuWrite : Bool) : Nat :=
  List.foldl (combineField hc) 0
    [FieldValue.ofUINT32 elementWidth, FieldValue.ofUINT32 firstElement,
     FieldValue.ofUINT32 numElements, FieldValue.ofBool randomGpuWrite]

/-! ## The growth loop -/

theorem growLoop_of_gt (attachment fuel i : Nat) (l : List RenderTexturePtr)
    (h : attachment < i) : growLoop attachment fuel i l = some l := by
  cases fuel <;> simp [growLoop, Nat.not_le.mpr h]

theorem growLoop_spec (attachment : Nat) :
    ∀ (fuel i : Nat) (l g : List RenderTexturePtr), i < UINT32_RANGE →
      growLoop attachment fuel i l = some g →
      g = l ++ List.replicate (attachment + 1 - i) 0 ∧
        (attachment < i ∨ attachment + 1 < UINT32_RANGE) := by
  intro fuel
  induction fuel with
  | zero =>
    intro i l g _ h
    by_cases hle : i ≤ attachment
    · simp [growLoop, hle] at h
    · simp only [growLoop, hle, if_false, Option.some.injEq] at h
      have h0 : attachment + 1 - i = 0 := by omega
      subst h
      simp [h0]
      omega
  | succ fuel ih =>
    intro i l g hi h
    by_cases hle : i ≤ attachment
    · simp only [growLoop, hle, if_true] at h
      have hpos : 0 < UINT32_RANGE := by unfold UINT32_RANGE; positivity
      have hlt : (i + 1) % UINT32_RANGE < UINT32_RANGE := Nat.mod_lt _ hpos
      obtain ⟨hg, hdone⟩ := ih _ _ _ hlt h
      by_cases hwrap : i + 1 < UINT32_RANGE
      · rw [Nat.mod_eq_of_lt hwrap] at hg hdone
        refine ⟨?_, Or.inr (by omega)⟩
        have hk : attachment + 1 - i = (attachment + 1 - (i + 1)) + 1 := by omega
        rw [hg, hk, List.replicate_succ, List.append_assoc]
        rfl
      · have hz : (i + 1) % UINT32_RANGE = 0 := by
          have : i + 1 = UINT32_RANGE := by omega
          rw [this, Nat.mod_self]
        rw [hz] at hdone
        omega
    · simp only [growLoop, hle, if_false, Option.some.injEq] at h
      have h0 : attachment + 1 - i = 0 := by omega
      subst h
      simp [h0]
      omega

theorem growLoop_enough (attachment : Nat) (hatt : attachment + 1 < UINT32_RANGE) :
    ∀ (fuel i : Nat) (l : List RenderTexturePtr), attachment + 1 - i ≤ fuel →
      growLoop attachment fuel i l = some (l ++ List.replicate (attachment + 1 - i) 0) := by
  intro fuel
  induction fuel with
  | zero =>
    intro i l hf
    have hgt : attachment < i := by omega
    have h0 : attachment + 1 - i = 0 := by omega
    rw [growLoop_of_gt _ _ _ _ hgt, h0]
    simp
  | succ fuel ih =>
    intro i l hf
    by_cases hle : i ≤ attachment
    · simp only [growLoop, hle, if_true]
      have hwrap : i + 1 < UINT32_RANGE := by omega
      rw [Nat.mod_eq_of_lt hwrap, ih (i + 1) (l ++ [0]) (by omega)]
      have hk : attachment + 1 - i = (attachment + 1 - (i + 1)) + 1 := by omega
      rw [hk, List.replicate_succ, List.append_assoc]
      rfl
    · have hgt : attachment < i := by omega
      have h0 : attachment + 1 - i = 0 := by omega
      rw [growLoop_of_gt _ _ _ _ hgt, h0]
      simp

theorem growLoop_max_none :
    ∀ (fuel i : Nat) (l : List RenderTexturePtr), i < UINT32_RANGE →
      growLoop (UINT32_RANGE - 1) fuel i l = none := by
  intro fuel i l hi
  cases h : growLoop (UINT32_RANGE - 1) fuel i l with
  | none => rfl
  | some g =>
    have := (growLoop_spec _ fuel i l g hi h).2
    have hpos : 0 < UINT32_RANGE := by unfold UINT32_RANGE; positivity
    omega

/-! ## bindSurface, step by step -/

theorem UINT32_RANGE_pos : 0 < UINT32_RANGE := by
  unfold UINT32_RANGE; positivity

/-- What a call of `bindSurface` that comes back has done. -/
theorem bindSurface_some {β : Type} (be : Backend β) (fuel : Nat) (s : MultiRenderTarget β)
    (attachment : Nat) (target : RenderTexturePtr) (r : MultiRenderTarget β × Outcome)
    (h : bindSurface be fuel s attachment target = some r) :
    r.1.mBoundSurfaces =
        (s.mBoundSurfaces ++ List.replicate
          (attachment + 1 - s.mBoundSurfaces.length % UINT32_RANGE) 0).set attachment target ∧
      r.1.hookLog =
        s.hookLog ++ [HookCall.bindSurfaceImpl r.1.mBoundSurfaces attachment target] ∧
      r.2 = (be.bindSurfaceImpl r.1.mBoundSurfaces s.backend attachment target).2 ∧
      r.1.backend = (be.bindSurfaceImpl r.1.mBoundSurfaces s.backend attachment target).1 ∧
      (attachment < s.mBoundSurfaces.length % UINT32_RANGE ∨ attachment + 1 < UINT32_RANGE) := by
  unfold bindSurface at h
  cases hg : growLoop attachment fuel (s.mBoundSurfaces.length % UINT32_RANGE) s.mBoundSurfaces with
  | none => rw [hg] at h; simp at h
  | some grown =>
    rw [hg] at h
    simp only [Option.some.injEq] at h
    obtain ⟨hgrown, hdone⟩ := growLoop_spec attachment fuel _ _ grown
      (Nat.mod_lt _ UINT32_RANGE_pos) hg
    subst h
    subst hgrown
    exact ⟨rfl, rfl, rfl, rfl, hdone⟩

/-- With `attachment + 1` representable and enough fuel, `bindSurface` comes back. -/
theorem bindSurface_enough {β : Type} (be : Backend β) (fuel : Nat) (s : MultiRenderTarget β)
    (attachment : Nat) (target : RenderTexturePtr) (hatt : attachment + 1 < UINT32_RANGE)
    (hfuel : attachment + 1 - s.mBoundSurfaces.length % UINT32_RANGE ≤ fuel) :
    ∃ r, bindSurface be fuel s attachment target = some r := by
  unfold bindSurface
  rw [growLoop_enough attachment hatt fuel _ _ hfuel]
  exact ⟨_, rfl⟩

/-- With `attachment = 2^32 - 1` the loop of `bindSurface` is still running whatever
the fuel. -/
theorem bindSurface_max_none {β : Type} (be : Backend β) (fuel : Nat) (s : MultiRenderTarget β)
    (target : RenderTexturePtr) :
    bindSurface be fuel s (UINT32_RANGE - 1) target = none := by
  unfold bindSurface
  rw [growLoop_max_none fuel _ _ (Nat.mod_lt _ UINT32_RANGE_pos)]

/-- After a call of `bindSurface` that comes back, `attachment` is inside the list. -/
theorem bindSurface_attachment_lt {β : Type} (be : Backend β) (fuel : Nat)
    (s : MultiRenderTarget β) (attachment : Nat) (target : RenderTexturePtr)
    (r : MultiRenderTarget β × Outcome)
    (h : bindSurface be fuel s attachment target = some r) :
    attachment < r.1.mBoundSurfaces.length := by
  obtain ⟨hl, -, -, -, hdone⟩ := bindSurface_some be fuel s attachment target r h
  rw [hl, List.length_set, List.length_append, List.length_replicate]
  have := Nat.mod_le s.mBoundSurfaces.length UINT32_RANGE
  omega

/-- After a call of `bindSurface` that comes back, slot `attachment` holds `target`. -/
theorem bindSurface_slot {β : Type} (be : Backend β) (fuel : Nat)
    (s : MultiRenderTarget β) (attachment : Nat) (target : RenderTexturePtr)
    (r : MultiRenderTarget β × Outcome)
    (h : bindSurface be fuel s attachment target = some r) :
    r.1.mBoundSurfaces[attachment]? = some target := by
  have hlt := bindSurface_attachment_lt be fuel s attachment target r h
  obtain ⟨hl, -⟩ := bindSurface_some be fuel s attachment target r h
  rw [hl] at hlt ⊢
  rw [List.length_set] at hlt
  rw [List.getElem?_set_self hlt]

theorem getBoundSurface_of_slot {β : Type} (s : MultiRenderTarget β) (index : Nat)
    (p : RenderTexturePtr) (h : s.mBoundSurfaces[index]? = some p) :
    getBoundSurface s index = (s, Lookup.value p) := by
  obtain ⟨hlt, hp⟩ := List.getElem?_eq_some_iff.mp h
  unfold getBoundSurface
  rw [dif_pos hlt, hp]

/-- The list of an object never has more than `2^32 - 1` slots, so the cast
`(UINT32)mBoundSurfaces.size()` does not truncate. -/
theorem Reachable.size_lt {β : Type} {be : Backend β} {s : MultiRenderTarget β}
    (h : Reachable be s) : s.mBoundSurfaces.length < UINT32_RANGE := by
  induction h with
  | fresh b => exact UINT32_RANGE_pos
  | bind fuel attachment target _ _ hcall ih =>
    obtain ⟨hl, -, -, -, hdone⟩ := bindSurface_some be fuel _ attachment target _ hcall
    rw [hl, List.length_set, List.length_append, List.length_replicate,
      Nat.mod_eq_of_lt ih] at *
    omega
  | unbind attachment _ _ ih =>
    unfold unbindSurface
    dsimp only
    split
    · rw [List.length_set]; exact ih
    · exact ih
  | get index _ _ ih =>
    unfold getBoundSurface
    split <;> exact ih

/-! ## Binding, unbinding and lookup -/

/-- C5: when `bindSurface(i, T)` comes back and its hook returned, the assertion of
`getBoundSurface(i)` holds and the call returns `T`, leaving the object as it is.
For every `i` below `2^32 - 1` (so for `i = 0`) the call does come back, on any
fuel from `i + 1` on, with slot `i` holding `T`. -/
theorem getBoundSurface_after_bindSurface {β : Type} (be : Backend β)
    (s : MultiRenderTarget β) (i : Nat) (T : RenderTexturePtr) :
    (∀ fuel r, bindSurface be fuel s i T = some r → r.2 = Outcome.returned →
        getBoundSurface r.1 i = (r.1, Lookup.value T)) ∧
      (i + 1 < UINT32_RANGE → ∀ fuel, i + 1 ≤ fuel →
        ∃ r, bindSurface be fuel s i T = some r ∧
          r.2 = (be.bindSurfaceImpl r.1.mBoundSurfaces s.backend i T).2 ∧
          getBoundSurface r.1 i = (r.1, Lookup.value T)) := by
  refine ⟨?_, ?_⟩
  · intro fuel r h _
    exact getBoundSurface_of_slot r.1 i T (bindSurface_slot be fuel s i T r h)
  · intro hi fuel hfuel
    obtain ⟨r, hr⟩ := bindSurface_enough be fuel s i T hi (by omega)
    exact ⟨r, hr, (bindSurface_some be fuel s i T r hr).2.2.1,
      getBoundSurface_of_slot r.1 i T (bindSurface_slot be fuel s i T r hr)⟩

theorem getBoundSurface_after_bindSurface_witness :
    bindSurface acceptAll 1 ⟨[7, 8], (), []⟩ 0 5
        = some (⟨[5, 8], (), [HookCall.bindSurfaceImpl [5, 8] 0 5]⟩, Outcome.returned) ∧
      getBoundSurface (⟨[5, 8], (), [HookCall.bindSurfaceImpl [5, 8] 0 5]⟩ : MultiRenderTarget Unit) 0
        = (⟨[5, 8], (), [HookCall.bindSurfaceImpl [5, 8] 0 5]⟩, Lookup.value 5) ∧
      (0 + 1 < UINT32_RANGE ∧ 0 + 1 ≤ 1 ∧
        ∃ r, bindSurface acceptAll 1 (MultiRenderTarget.fresh ()) 0 5 = some r ∧
          r.2 = (acceptAll.bindSurfaceImpl r.1.mBoundSurfaces () 0 5).2 ∧
          getBoundSurface r.1 0 = (r.1, Lookup.value 5)) :=
  ⟨by decide,
   (getBoundSurface_after_bindSurface acceptAll ⟨[7, 8], (), []⟩ 0 5).1 1
      (⟨[5, 8], (), [HookCall.bindSurfaceImpl [5, 8] 0 5]⟩, Outcome.returned) (by decide) rfl,
   by decide, by decide,
   (getBoundSurface_after_bindSurface acceptAll (MultiRenderTarget.fresh ()) 0 5).2
      (by decide) 1 (by decide)⟩

/-- C6, at the largest attachment index: on a new object, `bindSurface(2^32 - 1, T)`
does not come back on any fuel, so no list of size `2^32` with `T` in its last slot
is ever produced. The counter `i` wraps from `2^32 - 1` to `0` and `i <= attachment`
stays true. -/
theorem bindSurface_max_attachment_never_grows_to_size :
    ¬ ∃ fuel r, bindSurface acceptAll fuel (MultiRenderTarget.fresh ()) (UINT32_RANGE - 1) 5
      = some r := by
  rintro ⟨fuel, r, h⟩
  rw [bindSurface_max_none] at h
  exact Option.noConfusion h

/-- C6, amended: for a list of size `n` and an attachment index `i` with
`n <= i < 2^32 - 1`, `bindSurface(i, T)` comes back on any fuel of at least
`i + 1 - n` with a list of size `i + 1`: the old list, then `i - n` null slots,
then `T`. Slot `i` holds `T`, the slots `n .. i-1` are null, the slots `0 .. n-1`
are as before. -/
theorem bindSurface_grows {β : Type} (be : Backend β) (s : MultiRenderTarget β)
    (i : Nat) (T : RenderTexturePtr) (fuel : Nat)
    (hn : s.mBoundSurfaces.length ≤ i) (hi : i + 1 < UINT32_RANGE)
    (hfuel : i + 1 - s.mBoundSurfaces.length ≤ fuel) :
    ∃ r, bindSurface be fuel s i T = some r ∧
      getBoundSurfaceList r.1
        = s.mBoundSurfaces ++ List.replicate (i - s.mBoundSurfaces.length) 0 ++ [T] ∧
      (getBoundSurfaceList r.1).length = i + 1 ∧
      (getBoundSurfaceList r.1)[i]? = some T ∧
      (∀ j, s.mBoundSurfaces.length ≤ j → j < i → (getBoundSurfaceList r.1)[j]? = some 0) ∧
      (∀ j, j < s.mBoundSurfaces.length →
        (getBoundSurfaceList r.1)[j]? = s.mBoundSurfaces[j]?) := by
  have hmod : s.mBoundSurfaces.length % UINT32_RANGE = s.mBoundSurfaces.length :=
    Nat.mod_eq_of_lt (by omega)
  obtain ⟨r, hr⟩ := bindSurface_enough be fuel s i T hi (by rw [hmod]; exact hfuel)
  obtain ⟨hl, -⟩ := bindSurface_some be fuel s i T r hr
  rw [hmod] at hl
  have hk : i + 1 - s.mBoundSurfaces.length = (i - s.mBoundSurfaces.length) + 1 := by omega
  have hlist : r.1.mBoundSurfaces
      = s.mBoundSurfaces ++ List.replicate (i - s.mBoundSurfaces.length) 0 ++ [T] := by
    rw [hl, hk, List.replicate_succ', ← List.append_assoc]
    have hlen : (s.mBoundSurfaces ++ List.replicate (i - s.mBoundSurfaces.length) 0).length = i := by
      rw [List.length_append, List.length_replicate]; omega
    rw [List.set_append_right _ _ (by omega), hlen, Nat.sub_self]
    rfl
  refine ⟨r, hr, hlist, ?_, bindSurface_slot be fuel s i T r hr, ?_, ?_⟩
  · unfold getBoundSurfaceList
    rw [hlist]
    simp only [List.length_append, List.length_replicate, List.length_singleton]
    omega
  · intro j hj1 hj2
    unfold getBoundSurfaceList
    rw [hlist, List.append_assoc, List.getElem?_append_right hj1,
      List.getElem?_append_left (by rw [List.length_replicate]; omega),
      List.getElem?_replicate]
    rw [if_pos (by omega)]
  · intro j hj
    unfold getBoundSurfaceList
    rw [hlist, List.append_assoc, List.getElem?_append_left hj]

theorem bindSurface_grows_witness :
    ([7] : List RenderTexturePtr).length ≤ 3 ∧ 3 + 1 < UINT32_RANGE ∧
      3 + 1 - ([7] : List RenderTexturePtr).length ≤ 3 ∧
      ∃ r, bindSurface acceptAll 3 ⟨[7], (), []⟩ 3 5 = some r ∧
        getBoundSurfaceList r.1 = [7] ++ List.replicate (3 - 1) 0 ++ [5] ∧
        (getBoundSurfaceList r.1).length = 3 + 1 ∧
        (getBoundSurfaceList r.1)[3]? = some 5 ∧
        (∀ j, 1 ≤ j → j < 3 → (getBoundSurfaceList r.1)[j]? = some 0) ∧
        (∀ j, j < 1 → (getBoundSurfaceList r.1)[j]? = ([7] : List RenderTexturePtr)[j]?) :=
  ⟨by decide, by decide, by decide,
   bindSurface_grows acceptAll ⟨[7], (), []⟩ 3 5 3 (by decide) (by decide) (by decide)⟩

/-- C7: for a list of size `n` (below `2^32`, as the list of every object is):
if `i < n`, `unbindSurface(i)` stores null in slot `i` and keeps the size and every
other slot; if `i >= n` the list is unchanged, and the call returns whenever the
hook does: `unbindSurface` raises nothing of its own. -/
theorem unbindSurface_list {β : Type} (be : Backend β) (s : MultiRenderTarget β) (i : Nat) :
    (s.mBoundSurfaces.length < UINT32_RANGE → i < s.mBoundSurfaces.length →
        getBoundSurfaceList (unbindSurface be s i).1 = s.mBoundSurfaces.set i 0 ∧
        (getBoundSurfaceList (unbindSurface be s i).1).length = s.mBoundSurfaces.length ∧
        (getBoundSurfaceList (unbindSurface be s i).1)[i]? = some 0 ∧
        (∀ j, j ≠ i →
          (getBoundSurfaceList (unbindSurface be s i).1)[j]? = s.mBoundSurfaces[j]?)) ∧
      (s.mBoundSurfaces.length ≤ i →
        getBoundSurfaceList (unbindSurface be s i).1 = s.mBoundSurfaces ∧
        (unbindSurface be s i).2 = (be.unbindSurfaceImpl s.mBoundSurfaces s.backend i).2 ∧
        ((be.unbindSurfaceImpl s.mBoundSurfaces s.backend i).2 = Outcome.returned →
          (unbindSurface be s i).2 = Outcome.returned)) := by
  refine ⟨?_, ?_⟩
  · intro hn hi
    have hcond : i < s.mBoundSurfaces.length % UINT32_RANGE := by
      rw [Nat.mod_eq_of_lt hn]; exact hi
    have hl : getBoundSurfaceList (unbindSurface be s i).1 = s.mBoundSurfaces.set i 0 := by
      unfold getBoundSurfaceList unbindSurface
      dsimp only
      rw [if_pos hcond]
    refine ⟨hl, ?_, ?_, ?_⟩
    · rw [hl, List.length_set]
    · rw [hl, List.getElem?_set_self hi]
    · intro j hj
      rw [hl, List.getElem?_set_ne (Ne.symm hj)]
  · intro hi
    have hcond : ¬ i < s.mBoundSurfaces.length % UINT32_RANGE := by
      have := Nat.mod_le s.mBoundSurfaces.length UINT32_RANGE
      omega
    have hl : (unbindSurface be s i).1.mBoundSurfaces = s.mBoundSurfaces := by
      unfold unbindSurface
      dsimp only
      rw [if_neg hcond]
    have ho : (unbindSurface be s i).2 = (be.unbindSurfaceImpl s.mBoundSurfaces s.backend i).2 := by
      unfold unbindSurface
      dsimp only
      rw [if_neg hcond]
    exact ⟨hl, ho, fun h => ho.trans h⟩

theorem unbindSurface_list_witness :
    (([7, 8, 9] : List RenderTexturePtr).length < UINT32_RANGE ∧
        1 < ([7, 8, 9] : List RenderTexturePtr).length ∧
        getBoundSurfaceList (unbindSurface acceptAll ⟨[7, 8, 9], (), []⟩ 1).1 = [7, 0, 9]) ∧
      (([7, 8, 9] : List RenderTexturePtr).length ≤ 3 ∧
        getBoundSurfaceList (unbindSurface acceptAll ⟨[7, 8, 9], (), []⟩ 3).1 = [7, 8, 9] ∧
        (unbindSurface acceptAll ⟨[7, 8, 9], (), []⟩ 3).2 = Outcome.returned) :=
  ⟨⟨by decide, by decide,
    ((unbindSurface_list acceptAll ⟨[7, 8, 9], (), []⟩ 1).1 (by decide) (by decide)).1⟩,
   ⟨by decide,
    ((unbindSurface_list acceptAll ⟨[7, 8, 9], (), []⟩ 3).2 (by decide)).1,
    ((unbindSurface_list acceptAll ⟨[7, 8, 9], (), []⟩ 3).2 (by decide)).2.2 rfl⟩⟩

/-- C8, at the largest attachment index: `bindSurface(2^32 - 1, T)` on the list `[7]`
does not reach its hook. The call is still in the loop on every fuel, so no call
comes back with `bindSurfaceImpl(2^32 - 1, T)` in the log. -/
theorem bindSurface_max_attachment_hook_not_invoked :
    ¬ ∃ fuel r, bindSurface acceptAll fuel ⟨[7], (), []⟩ (UINT32_RANGE - 1) 5 = some r ∧
      r.1.hookLog = [HookCall.bindSurfaceImpl r.1.mBoundSurfaces (UINT32_RANGE - 1) 5] := by
  rintro ⟨fuel, r, h, -⟩
  rw [bindSurface_max_none] at h
  exact Option.noConfusion h

/-- C8, amended: `unbindSurface(i)` invokes `unbindSurfaceImpl` exactly once, with
argument `i` and on the list as `unbindSurface` leaves it (slot `i` null when `i`
is inside, the old list when not): the backend after the call is the backend the
hook returns from one application to the backend before the call, the outcome of
the call is the outcome of that application, and a backend that counts its
invocations stands one higher. For `i < 2^32 - 1`, `bindSurface(i, T)` comes back
(on any fuel from `i + 1` on), and a call that comes back has invoked
`bindSurfaceImpl` exactly once, with `(i, T)`, on the final list, in which slot `i`
holds `T`: again the backend after the call is one application of the hook to the
backend before it, and the counting backend stands one higher. -/
theorem hooks_invoked_once {β : Type} (be : Backend β) (s : MultiRenderTarget β)
    (i : Nat) (T : RenderTexturePtr) (c : MultiRenderTarget Nat) :
    ((unbindSurface be s i).1.mBoundSurfaces
        = (if i < s.mBoundSurfaces.length % UINT32_RANGE then s.mBoundSurfaces.set i 0
           else s.mBoundSurfaces) ∧
      (unbindSurface be s i).1.hookLog
        = s.hookLog ++ [HookCall.unbindSurfaceImpl (unbindSurface be s i).1.mBoundSurfaces i] ∧
      (unbindSurface be s i).1.backend
        = (be.unbindSurfaceImpl (unbindSurface be s i).1.mBoundSurfaces s.backend i).1 ∧
      (unbindSurface be s i).2
        = (be.unbindSurfaceImpl (unbindSurface be s i).1.mBoundSurfaces s.backend i).2 ∧
      (unbindSurface countingBackend c i).1.backend = c.backend + 1) ∧
      (∀ fuel r, bindSurface be fuel s i T = some r →
        r.1.hookLog = s.hookLog ++ [HookCall.bindSurfaceImpl r.1.mBoundSurfaces i T] ∧
        r.1.mBoundSurfaces[i]? = some T ∧
        r.1.backend = (be.bindSurfaceImpl r.1.mBoundSurfaces s.backend i T).1 ∧
        r.2 = (be.bindSurfaceImpl r.1.mBoundSurfaces s.backend i T).2) ∧
      (∀ fuel r, bindSurface countingBackend fuel c i T = some r →
        r.1.backend = c.backend + 1) ∧
      (i + 1 < UINT32_RANGE → ∀ fuel, i + 1 ≤ fuel →
        (∃ r, bindSurface be fuel s i T = some r ∧
          r.1.backend = (be.bindSurfaceImpl r.1.mBoundSurfaces s.backend i T).1) ∧
        (∃ r, bindSurface countingBackend fuel c i T = some r ∧
          r.1.backend = c.backend + 1)) := by
  refine ⟨⟨rfl, rfl, rfl, rfl, rfl⟩, ?_, ?_, ?_⟩
  · intro fuel r h
    obtain ⟨-, hlog, hout, hback, -⟩ := bindSurface_some be fuel s i T r h
    exact ⟨hlog, bindSurface_slot be fuel s i T r h, hback, hout⟩
  · intro fuel r h
    exact (bindSurface_some countingBackend fuel c i T r h).2.2.2.1
  · intro hi fuel hfuel
    obtain ⟨r, hr⟩ := bindSurface_enough be fuel s i T hi (by omega)
    obtain ⟨r2, hr2⟩ := bindSurface_enough countingBackend fuel c i T hi (by omega)
    exact ⟨⟨r, hr, (bindSurface_some be fuel s i T r hr).2.2.2.1⟩,
      ⟨r2, hr2, (bindSurface_some countingBackend fuel c i T r2 hr2).2.2.2.1⟩⟩

theorem hooks_invoked_once_witness :
    (unbindSurface acceptAll ⟨[7, 8], (), []⟩ 9).1.hookLog
        = [HookCall.unbindSurfaceImpl [7, 8] 9] ∧
      (unbindSurface acceptAll ⟨[7, 8], (), []⟩ 1).1.hookLog
        = [HookCall.unbindSurfaceImpl [7, 0] 1] ∧
      (unbindSurface countingBackend ⟨[7, 8], 4, []⟩ 1).1.backend = 4 + 1 ∧
      (unbindSurface countingBackend ⟨[7, 8], 4, []⟩ 9).1
        = ⟨[7, 8], 5, [HookCall.unbindSurfaceImpl [7, 8] 9]⟩ ∧
      bindSurface acceptAll 3 ⟨[7, 8], (), []⟩ 3 5
        = some (⟨[7, 8, 0, 5], (), [HookCall.bindSurfaceImpl [7, 8, 0, 5] 3 5]⟩,
            Outcome.returned) ∧
      (⟨[7, 8, 0, 5], (), [HookCall.bindSurfaceImpl [7, 8, 0, 5] 3 5]⟩ :
          MultiRenderTarget Unit).hookLog
        = [] ++ [HookCall.bindSurfaceImpl [7, 8, 0, 5] 3 5] ∧
      bindSurface countingBackend 3 ⟨[7, 8], 4, []⟩ 3 5
        = some (⟨[7, 8, 0, 5], 5, [HookCall.bindSurfaceImpl [7, 8, 0, 5] 3 5]⟩,
            Outcome.returned) ∧
      (⟨[7, 8, 0, 5], 5, [HookCall.bindSurfaceImpl [7, 8, 0, 5] 3 5]⟩ :
          MultiRenderTarget Nat).backend = 4 + 1 ∧
      (3 + 1 < UINT32_RANGE ∧ 3 + 1 ≤ 4 ∧
        (∃ r, bindSurface acceptAll 4 ⟨[7, 8], (), []⟩ 3 5 = some r ∧
          r.1.backend = (acceptAll.bindSurfaceImpl r.1.mBoundSurfaces () 3 5).1) ∧
        (∃ r, bindSurface countingBackend 4 ⟨[7, 8], 4, []⟩ 3 5 = some r ∧
          r.1.backend = 4 + 1)) :=
  ⟨by decide, by decide,
   (hooks_invoked_once acceptAll ⟨[7, 8], (), []⟩ 1 5 ⟨[7, 8], 4, []⟩).1.2.2.2.2,
   by decide, by decide,
   ((hooks_invoked_once acceptAll ⟨[7, 8], (), []⟩ 3 5 ⟨[7, 8], 4, []⟩).2.1 3
      (⟨[7, 8, 0, 5], (), [HookCall.bindSurfaceImpl [7, 8, 0, 5] 3 5]⟩, Outcome.returned)
      (by decide)).1,
   by decide,
   (hooks_invoked_once acceptAll ⟨[7, 8], (), []⟩ 3 5 ⟨[7, 8], 4, []⟩).2.2.1 3
      (⟨[7, 8, 0, 5], 5, [HookCall.bindSurfaceImpl [7, 8, 0, 5] 3 5]⟩, Outcome.returned)
      (by decide),
   by decide, by decide,
   (hooks_invoked_once acceptAll ⟨[7, 8], (), []⟩ 3 5 ⟨[7, 8], 4, []⟩).2.2.2 (by decide) 4
      (by decide)⟩

/-- C9: for a list of size `n`, `getBoundSurface(index)` returns a pointer exactly
when `index < n`, and then it is the content of slot `index`; when `index >= n` the
assertion fails and no pointer is returned; in both cases the object is unchanged. -/
theorem getBoundSurface_bounds {β : Type} (s : MultiRenderTarget β) (index : Nat) :
    ((∃ p, (getBoundSurface s index).2 = Lookup.value p) ↔ index < s.mBoundSurfaces.length) ∧
      (index < s.mBoundSurfaces.length →
        ∃ p, s.mBoundSurfaces[index]? = some p ∧
          getBoundSurface s index = (s, Lookup.value p)) ∧
      (s.mBoundSurfaces.length ≤ index →
        getBoundSurface s index = (s, Lookup.assertionFailed)) ∧
      (getBoundSurface s index).1 = s := by
  by_cases h : index < s.mBoundSurfaces.length
  · have hv : getBoundSurface s index = (s, Lookup.value (s.mBoundSurfaces[index])) := by
      unfold getBoundSurface
      rw [dif_pos h]
    refine ⟨⟨fun _ => h, fun _ => ⟨_, by rw [hv]⟩⟩, ?_, ?_, by rw [hv]⟩
    · intro _
      exact ⟨_, List.getElem?_eq_getElem h, hv⟩
    · intro hge
      omega
  · have hv : getBoundSurface s index = (s, Lookup.assertionFailed) := by
      unfold getBoundSurface
      rw [dif_neg h]
    refine ⟨⟨?_, fun hlt => absurd hlt h⟩, fun hlt => absurd hlt h, fun _ => hv, by rw [hv]⟩
    rintro ⟨p, hp⟩
    rw [hv] at hp
    exact Lookup.noConfusion hp

theorem getBoundSurface_bounds_witness :
    (2 < ([7, 0, 9] : List RenderTexturePtr).length ∧
        ∃ p, ([7, 0, 9] : List RenderTexturePtr)[2]? = some p ∧
          getBoundSurface (⟨[7, 0, 9], (), []⟩ : MultiRenderTarget Unit) 2
            = (⟨[7, 0, 9], (), []⟩, Lookup.value p)) ∧
      (([7, 0, 9] : List RenderTexturePtr).length ≤ 3 ∧
        getBoundSurface (⟨[7, 0, 9], (), []⟩ : MultiRenderTarget Unit) 3
          = (⟨[7, 0, 9], (), []⟩, Lookup.assertionFailed)) ∧
      getBoundSurface (⟨[7, 0, 9], (), []⟩ : MultiRenderTarget Unit) 1
        = (⟨[7, 0, 9], (), []⟩, Lookup.value 0) :=
  ⟨⟨by decide, (getBoundSurface_bounds (⟨[7, 0, 9], (), []⟩ : MultiRenderTarget Unit) 2).2.1
      (by decide)⟩,
   ⟨by decide, (getBoundSurface_bounds (⟨[7, 0, 9], (), []⟩ : MultiRenderTarget Unit) 3).2.2.1
      (by decide)⟩,
   by decide⟩

/-! ## Rejected binds -/

/-- C1, evaluated: the list holds surfaces `1` and `2` (both 512x512) at attachments
0 and 1; `bindSurface(0, 3)` with the 256x256 surface `3` is rejected by the hook
with `ERR_INVALIDPARAMS`, whatever the fuel, and attachment 0, which held surface
`1` before the call, holds the rejected surface `3` after it. -/
theorem bindSurface_rejected_overwrites_binding :
    (getBoundSurface (⟨[1, 2], (), []⟩ : MultiRenderTarget Unit) 0).2 = Lookup.value 1 ∧
      ∀ fuel : Nat, ∃ r, bindSurface checkingBackend fuel ⟨[1, 2], (), []⟩ 0 3 = some r ∧
        r.2 = Outcome.threw ExceptionCode.ERR_INVALIDPARAMS ∧
        (getBoundSurface r.1 0).2 = Lookup.value 3 ∧
        (getBoundSurface r.1 1).2 = Lookup.value 2 := by
  refine ⟨by decide, ?_⟩
  intro fuel
  have hloop : growLoop 0 fuel (([1, 2] : List RenderTexturePtr).length % UINT32_RANGE) [1, 2]
      = some [1, 2] := growLoop_of_gt 0 fuel _ _ (by decide)
  refine ⟨(⟨[3, 2], (), [HookCall.bindSurfaceImpl [3, 2] 0 3]⟩,
    Outcome.threw ExceptionCode.ERR_INVALIDPARAMS), ?_, rfl, by decide, by decide⟩
  unfold bindSurface
  rw [hloop]
  decide

/-- C2, evaluated on the scenario of the spec: surfaces `1`, `2`, `4` (512x512) are
bound to attachments 0, 1, 2 of a new object and each call returns; then
`bindSurface(3, 3)` with the 256x256 surface `3` throws `ERR_INVALIDPARAMS`, and
after the throw the list has four slots instead of three and slot 3 holds the
rejected surface. -/
theorem bindSurface_rejected_target_is_bound :
    ∃ s1 s2 s3 r,
      bindSurface checkingBackend 1 (MultiRenderTarget.fresh ()) 0 1 = some (s1, Outcome.returned) ∧
      bindSurface checkingBackend 1 s1 1 2 = some (s2, Outcome.returned) ∧
      bindSurface checkingBackend 1 s2 2 4 = some (s3, Outcome.returned) ∧
      bindSurface checkingBackend 1 s3 3 3 = some r ∧
      r.2 = Outcome.threw ExceptionCode.ERR_INVALIDPARAMS ∧
      getBoundSurfaceList s3 = [1, 2, 4] ∧
      getBoundSurfaceList r.1 = [1, 2, 4, 3] ∧
      (getBoundSurfaceList s3).length = 3 ∧ (getBoundSurfaceList r.1).length = 4 ∧
      (getBoundSurface r.1 3).2 = Lookup.value 3 :=
  ⟨⟨[1], (), [HookCall.bindSurfaceImpl [1] 0 1]⟩,
   ⟨[1, 2], (), [HookCall.bindSurfaceImpl [1] 0 1, HookCall.bindSurfaceImpl [1, 2] 1 2]⟩,
   ⟨[1, 2, 4], (), [HookCall.bindSurfaceImpl [1] 0 1, HookCall.bindSurfaceImpl [1, 2] 1 2,
      HookCall.bindSurfaceImpl [1, 2, 4] 2 4]⟩,
   (⟨[1, 2, 4, 3], (), [HookCall.bindSurfaceImpl [1] 0 1, HookCall.bindSurfaceImpl [1, 2] 1 2,
      HookCall.bindSurfaceImpl [1, 2, 4] 2 4, HookCall.bindSurfaceImpl [1, 2, 4, 3] 3 3]⟩,
    Outcome.threw ExceptionCode.ERR_INVALIDPARAMS),
   by decide, by decide, by decide, by decide, rfl, rfl, rfl, rfl, rfl, by decide⟩

/-! ## Buffer-view keys -/

theorem EqualFunction_iff (a b : Key) :
    EqualFunction a b = true ↔
      a.mFirstElement = b.mFirstElement ∧ a.mElementWidth = b.mElementWidth ∧
        a.mNumElements = b.mNumElements ∧ a.mRandomGpuWrite = b.mRandomGpuWrite := by
  simp only [EqualFunction, Bool.and_eq_true, beq_iff_eq]
  tauto

theorem key_eq_of_EqualFunction (a b : Key) (h : EqualFunction a b = true) : a = b := by
  obtain ⟨h1, h2, h3, h4⟩ := (EqualFunction_iff a b).mp h
  cases a
  cases b
  simp only [GenericBufferView.mk.injEq]
  exact ⟨h1, h2, h3, h4⟩

/-- C3: two keys constructed from the same four values compare equal under
`EqualFunction` and have the same `HashFunction` value; and whenever
`EqualFunction a b` is true, `HashFunction a = HashFunction b`, for every
`hash_combine`. -/
theorem equal_keys_hash_equal (hc : HashCombine) (firstElement elementWidth numElements : Nat)
    (randomGpuWrite : Bool) (k1 k2 a b : Key)
    (h1 : k1 = GenericBufferView.ctor firstElement elementWidth numElements randomGpuWrite)
    (h2 : k2 = GenericBufferView.ctor firstElement elementWidth numElements randomGpuWrite) :
    (EqualFunction k1 k2 = true ∧ HashFunction hc k1 = HashFunction hc k2) ∧
      (EqualFunction a b = true → HashFunction hc a = HashFunction hc b) := by
  refine ⟨⟨?_, ?_⟩, ?_⟩
  · rw [EqualFunction_iff, h1, h2]
    exact ⟨rfl, rfl, rfl, rfl⟩
  · rw [h1, h2]
  · intro h
    rw [key_eq_of_EqualFunction a b h]

theorem equal_keys_hash_equal_witness :
    (EqualFunction (GenericBufferView.ctor 4 16 10 true) (GenericBufferView.ctor 4 16 10 true) = true ∧
      HashFunction sampleCombine (GenericBufferView.ctor 4 16 10 true)
        = HashFunction sampleCombine (GenericBufferView.ctor 4 16 10 true)) ∧
    (EqualFunction ⟨4, 16, 10, true⟩ (GenericBufferView.ctor 4 16 10 true) = true →
      HashFunction sampleCombine ⟨4, 16, 10, true⟩
        = HashFunction sampleCombine (GenericBufferView.ctor 4 16 10 true)) ∧
    EqualFunction ⟨4, 16, 10, true⟩ (GenericBufferView.ctor 4 16 10 true) = true ∧
    HashFunction sampleCombine (GenericBufferView.ctor 4 16 10 true) = 696299 :=
  ⟨(equal_keys_hash_equal sampleCombine 4 16 10 true _ _ ⟨4, 16, 10, true⟩
      (GenericBufferView.ctor 4 16 10 true) rfl rfl).1,
   (equal_keys_hash_equal sampleCombine 4 16 10 true _ _ ⟨4, 16, 10, true⟩
      (GenericBufferView.ctor 4 16 10 true) rfl rfl).2,
   by decide, by decide⟩

/-- C4: `EqualFunction a b` is true exactly when the four fields of `a` and `b`
match; it is false for keys that differ in a field, also when their hashes
collide under the `hash_combine` in use. -/
theorem EqualFunction_fieldwise (hc : HashCombine) (a b : Key) :
    (EqualFunction a b = true ↔
        a.mFirstElement = b.mFirstElement ∧ a.mElementWidth = b.mElementWidth ∧
          a.mNumElements = b.mNumElements ∧ a.mRandomGpuWrite = b.mRandomGpuWrite) ∧
      ((a.mFirstElement ≠ b.mFirstElement ∨ a.mElementWidth ≠ b.mElementWidth ∨
          a.mNumElements ≠ b.mNumElements ∨ a.mRandomGpuWrite ≠ b.mRandomGpuWrite) →
        EqualFunction a b = false) ∧
      (HashFunction hc a = HashFunction hc b → a ≠ b → EqualFunction a b = false) := by
  refine ⟨EqualFunction_iff a b, ?_, ?_⟩
  · intro hne
    cases hE : EqualFunction a b with
    | false => rfl
    | true =>
      obtain ⟨h1, h2, h3, h4⟩ := (EqualFunction_iff a b).mp hE
      rcases hne with h | h | h | h
      · exact absurd h1 h
      · exact absurd h2 h
      · exact absurd h3 h
      · exact absurd h4 h
  · intro _ hne
    cases hE : EqualFunction a b with
    | false => rfl
    | true => exact absurd (key_eq_of_EqualFunction a b hE) hne

theorem EqualFunction_fieldwise_witness :
    HashFunction collidingCombine (GenericBufferView.ctor 4 16 10 true)
        = HashFunction collidingCombine (GenericBufferView.ctor 5 16 10 true) ∧
      GenericBufferView.ctor 4 16 10 true ≠ GenericBufferView.ctor 5 16 10 true ∧
      EqualFunction (GenericBufferView.ctor 4 16 10 true) (GenericBufferView.ctor 5 16 10 true)
        = false ∧
      EqualFunction (GenericBufferView.ctor 4 16 10 true) (GenericBufferView.ctor 4 16 10 false)
        = false :=
  ⟨by decide, by decide,
   (EqualFunction_fieldwise collidingCombine (GenericBufferView.ctor 4 16 10 true)
      (GenericBufferView.ctor 5 16 10 true)).2.2 (by decide) (by decide),
   (EqualFunction_fieldwise sampleCombine (GenericBufferView.ctor 4 16 10 true)
      (GenericBufferView.ctor 4 16 10 false)).2.1 (Or.inr (Or.inr (Or.inr (by decide))))⟩

/-- C10: the constructor stores its four arguments in the members of the same
name: `mFirstElement`, `mElementWidth`, `mNumElements` and `mRandomGpuWrite` of
the new object are `firstElement`, `elementWidth`, `numElements` and
`randomGpuWrite`. -/
theorem ctor_stores_verbatim (firstElement elementWidth numElements : Nat)
    (randomGpuWrite : Bool) :
    (GenericBufferView.ctor firstElement elementWidth numElements randomGpuWrite).mFirstElement
        = firstElement ∧
      (GenericBufferView.ctor firstElement elementWidth numElements randomGpuWrite).mElementWidth
        = elementWidth ∧
      (GenericBufferView.ctor firstElement elementWidth numElements randomGpuWrite).mNumElements
        = numElements ∧
      (GenericBufferView.ctor firstElement elementWidth numElements randomGpuWrite).mRandomGpuWrite
        = randomGpuWrite :=
  ⟨rfl, rfl, rfl, rfl⟩

/-- C15: `HashFunction` is the left fold of `hash_combine` from seed 0 over
elementWidth, firstElement, numElements, randomGpuWrite, in this order. It is a
function of the four fields: keys with the same fields have the same hash. It
reads each of the four: under the injective combiner, keys that differ in a field
have different hashes. -/
theorem HashFunction_is_fold (hc : HashCombine) (key a b : Key) :
    HashFunction hc key
        = hashFold hc key.mFirstElement key.mElementWidth key.mNumElements key.mRandomGpuWrite ∧
      (a.mFirstElement = b.mFirstElement → a.mElementWidth = b.mElementWidth →
        a.mNumElements = b.mNumElements → a.mRandomGpuWrite = b.mRandomGpuWrite →
        HashFunction hc a = HashFunction hc b) ∧
      ((a.mFirstElement ≠ b.mFirstElement ∨ a.mElementWidth ≠ b.mElementWidth ∨
          a.mNumElements ≠ b.mNumElements ∨ a.mRandomGpuWrite ≠ b.mRandomGpuWrite) →
        HashFunction pairingCombine a ≠ HashFunction pairingCombine b) := by
  refine ⟨rfl, ?_, ?_⟩
  · intro h1 h2 h3 h4
    unfold HashFunction
    rw [h1, h2, h3, h4]
  · intro hne heq
    simp only [HashFunction, pairingCombine, Nat.pair_eq_pair] at heq
    obtain ⟨⟨⟨⟨-, hw⟩, hf⟩, hn⟩, hr⟩ := heq
    have hr2 : a.mRandomGpuWrite = b.mRandomGpuWrite := by
      cases ha : a.mRandomGpuWrite <;> cases hb : b.mRandomGpuWrite <;>
        simp [ha, hb] at hr ⊢
    rcases hne with h | h | h | h
    · exact h hf
    · exact h hw
    · exact h hn
    · exact h hr2

theorem HashFunction_is_fold_witness :
    HashFunction sampleCombine (GenericBufferView.ctor 4 16 10 true) = hashFold sampleCombine 4 16 10 true ∧
      hashFold sampleCombine 4 16 10 true = 696299 ∧
      HashFunction sampleCombine (GenericBufferView.ctor 4 16 10 true)
        = HashFunction sampleCombine ⟨4, 16, 10, true⟩ ∧
      (GenericBufferView.ctor 4 16 10 true).mElementWidth
        ≠ (GenericBufferView.ctor 16 4 10 true).mElementWidth ∧
      HashFunction pairingCombine (GenericBufferView.ctor 4 16 10 true)
        ≠ HashFunction pairingCombine (GenericBufferView.ctor 16 4 10 true) ∧
      HashFunction sampleCombine (GenericBufferView.ctor 4 16 10 true)
        ≠ HashFunction sampleCombine (GenericBufferView.ctor 16 4 10 true) :=
  ⟨(HashFunction_is_fold sampleCombine (GenericBufferView.ctor 4 16 10 true)
      (GenericBufferView.ctor 4 16 10 true) (GenericBufferView.ctor 16 4 10 true)).1,
   by decide,
   (HashFunction_is_fold sampleCombine (GenericBufferView.ctor 4 16 10 true)
      (GenericBufferView.ctor 4 16 10 true) ⟨4, 16, 10, true⟩).2.1 rfl rfl rfl rfl,
   by decide,
   (HashFunction_is_fold sampleCombine (GenericBufferView.ctor 4 16 10 true)
      (GenericBufferView.ctor 4 16 10 true) (GenericBufferView.ctor 16 4 10 true)).2.2
      (Or.inr (Or.inl (by decide))),
   by decide⟩

/-! ## Constant members and the new object -/

/-- C11: for every `MultiRenderTarget` state, `suggestPixelFormat()` is `PF_UNKNOWN`,
and the call leaves the object as it is. -/
theorem suggestPixelFormat_unknown {β : Type} (be : Backend β) (fuel : Nat)
    (s : MultiRenderTarget β) :
    suggestPixelFormat s = PixelFormat.PF_UNKNOWN ∧
      applyOp be fuel s Op.suggestPixelFormat = some s :=
  ⟨rfl, rfl⟩

/-- C12: for every `RenderTexture` state, whatever its type, formats, face, face
count, mip level, texture and depth-stencil buffer, `requiresTextureFlipping()` is
false. -/
theorem requiresTextureFlipping_false (mType : Nat) (mFormat : PixelFormat)
    (mDepthStencilFormat mFace mNumFaces mMipLevel mTexture mDepthStencilBuffer : Nat) :
    RenderTexture.requiresTextureFlipping
      { mType := mType, mFormat := mFormat, mDepthStencilFormat := mDepthStencilFormat,
        mFace := mFace, mNumFaces := mNumFaces, mMipLevel := mMipLevel,
        mTexture := mTexture, mDepthStencilBuffer := mDepthStencilBuffer } = false :=
  rfl

/-- C13: the list of a new `MultiRenderTarget` is empty, of size 0, and on that
state the assertion of `getBoundSurface(index)` fails for every index. -/
theorem fresh_list_empty {β : Type} (b : β) (index : Nat) :
    getBoundSurfaceList (MultiRenderTarget.fresh b) = [] ∧
      (getBoundSurfaceList (MultiRenderTarget.fresh b)).length = 0 ∧
      getBoundSurface (MultiRenderTarget.fresh b) index
        = (MultiRenderTarget.fresh b, Lookup.assertionFailed) ∧
      ¬ ∃ p, (getBoundSurface (MultiRenderTarget.fresh b) index).2 = Lookup.value p := by
  have hv : getBoundSurface (MultiRenderTarget.fresh b) index
      = (MultiRenderTarget.fresh b, Lookup.assertionFailed) := by
    unfold getBoundSurface
    rw [dif_neg]
    exact Nat.not_lt_zero index
  refine ⟨rfl, rfl, hv, ?_⟩
  rintro ⟨p, hp⟩
  rw [hv] at hp
  exact Lookup.noConfusion hp

/-- C14: for every `MultiRenderTarget` state and every `dst` and `buffer`,
`copyContentsToMemory(dst, buffer)` fails with the UnsupportedOperation error and
does not return normally. -/
theorem copyContentsToMemory_fails {β PixelData FrameBuffer : Type} (s : MultiRenderTarget β)
    (dst : PixelData) (buffer : FrameBuffer) :
    (copyContentsToMemory s dst buffer).2 = Except.error ErrorKind.UnsupportedOperation ∧
      ¬ ∃ u, (copyContentsToMemory s dst buffer).2 = Except.ok u := by
  refine ⟨rfl, ?_⟩
  rintro ⟨u, hu⟩
  exact Except.noConfusion hu

/-! ## The loop, in-range binds, and sequences of calls -/

theorem growLoop_fuel_le (attachment : Nat) :
    ∀ (fuel i : Nat) (l g : List RenderTexturePtr), i < UINT32_RANGE →
      growLoop attachment fuel i l = some g → attachment + 1 - i ≤ fuel := by
  intro fuel
  induction fuel with
  | zero =>
    intro i l g _ h
    by_cases hle : i ≤ attachment
    · simp [growLoop, hle] at h
    · omega
  | succ fuel ih =>
    intro i l g hi h
    by_cases hle : i ≤ attachment
    · have hdone := (growLoop_spec attachment (fuel + 1) i l g hi h).2
      have hwrap : i + 1 < UINT32_RANGE := by omega
      simp only [growLoop, hle, if_true, Nat.mod_eq_of_lt hwrap] at h
      have := ih (i + 1) _ g hwrap h
      omega
    · omega

theorem set_eq_self_of_getElem? {α : Type} (l : List α) (i : Nat) (a : α)
    (h : l[i]? = some a) : l.set i a = l := by
  apply List.ext_getElem?
  intro j
  by_cases hj : i = j
  · subst hj
    obtain ⟨hlt, -⟩ := List.getElem?_eq_some_iff.mp h
    rw [List.getElem?_set_self hlt, h]
  · rw [List.getElem?_set_ne hj]

/-- C17: with a list of size `n < 2^32` and an attachment index `i < 2^32 - 1`, the
loop of `bindSurface` ends: on any fuel of at least `i + 1 - n` (truncated
subtraction, so `max(0, i + 1 - n)`) it has appended exactly that many null slots,
and on less fuel it is still running. With attachment `2^32 - 1` it is still
running on every fuel. -/
theorem growLoop_terminates (l : List RenderTexturePtr) (i : Nat) :
    (l.length < UINT32_RANGE → i + 1 < UINT32_RANGE →
        (∀ fuel, i + 1 - l.length ≤ fuel →
          growLoop i fuel (l.length % UINT32_RANGE) l
            = some (l ++ List.replicate (i + 1 - l.length) 0)) ∧
        (∀ fuel, fuel < i + 1 - l.length →
          growLoop i fuel (l.length % UINT32_RANGE) l = none)) ∧
      (∀ fuel, growLoop (UINT32_RANGE - 1) fuel (l.length % UINT32_RANGE) l = none) := by
  refine ⟨?_, ?_⟩
  · intro hn hi
    rw [Nat.mod_eq_of_lt hn]
    refine ⟨fun fuel hfuel => growLoop_enough i hi fuel _ l hfuel, ?_⟩
    intro fuel hfuel
    cases h : growLoop i fuel l.length l with
    | none => rfl
    | some g =>
      have := growLoop_fuel_le i fuel l.length l g hn h
      omega
  · intro fuel
    exact growLoop_max_none fuel _ l (Nat.mod_lt _ UINT32_RANGE_pos)

theorem growLoop_terminates_witness :
    ([7] : List RenderTexturePtr).length < UINT32_RANGE ∧ 3 + 1 < UINT32_RANGE ∧
      growLoop 3 3 (([7] : List RenderTexturePtr).length % UINT32_RANGE) [7] = some [7, 0, 0, 0] ∧
      growLoop 3 2 (([7] : List RenderTexturePtr).length % UINT32_RANGE) [7] = none ∧
      growLoop 0 0 (([7] : List RenderTexturePtr).length % UINT32_RANGE) [7] = some [7] :=
  ⟨by decide, by decide,
   ((growLoop_terminates [7] 3).1 (by decide) (by decide)).1 3 (by decide),
   ((growLoop_terminates [7] 3).1 (by decide) (by decide)).2 2 (by decide),
   ((growLoop_terminates [7] 0).1 (by decide) (by decide)).1 0 (by decide)⟩

/-- C16: for a list of size `n` (below `2^32`, as the list of every object is) and
an attachment index `i < n`, the loop of `bindSurface(i, T)` ends without an
iteration, the call comes back on any fuel, the size stays `n`, slot `i` holds
`T` whatever it held, and every other slot is unchanged. -/
theorem bindSurface_in_range {β : Type} (be : Backend β) (s : MultiRenderTarget β)
    (i : Nat) (T : RenderTexturePtr) (fuel : Nat)
    (hn : s.mBoundSurfaces.length < UINT32_RANGE) (hi : i < s.mBoundSurfaces.length) :
    growLoop i 0 (s.mBoundSurfaces.length % UINT32_RANGE) s.mBoundSurfaces
        = some s.mBoundSurfaces ∧
      ∃ r, bindSurface be fuel s i T = some r ∧
        getBoundSurfaceList r.1 = s.mBoundSurfaces.set i T ∧
        (getBoundSurfaceList r.1).length = s.mBoundSurfaces.length ∧
        (getBoundSurfaceList r.1)[i]? = some T ∧
        (∀ j, j ≠ i → (getBoundSurfaceList r.1)[j]? = s.mBoundSurfaces[j]?) := by
  have hmod : s.mBoundSurfaces.length % UINT32_RANGE = s.mBoundSurfaces.length :=
    Nat.mod_eq_of_lt hn
  have hloop : ∀ f, growLoop i f (s.mBoundSurfaces.length % UINT32_RANGE) s.mBoundSurfaces
      = some s.mBoundSurfaces := fun f => growLoop_of_gt i f _ _ (by rw [hmod]; exact hi)
  refine ⟨hloop 0, ?_⟩
  have hcall : ∃ r, bindSurface be fuel s i T = some r := by
    unfold bindSurface
    rw [hloop fuel]
    exact ⟨_, rfl⟩
  obtain ⟨r, hr⟩ := hcall
  obtain ⟨hl, -⟩ := bindSurface_some be fuel s i T r hr
  have hk : i + 1 - s.mBoundSurfaces.length % UINT32_RANGE = 0 := by rw [hmod]; omega
  rw [hk, List.replicate_zero, List.append_nil] at hl
  refine ⟨r, hr, hl, ?_, bindSurface_slot be fuel s i T r hr, ?_⟩
  · unfold getBoundSurfaceList
    rw [hl, List.length_set]
  · intro j hj
    unfold getBoundSurfaceList
    rw [hl, List.getElem?_set_ne (Ne.symm hj)]

theorem bindSurface_in_range_witness :
    ([7, 8, 9] : List RenderTexturePtr).length < UINT32_RANGE ∧
      1 < ([7, 8, 9] : List RenderTexturePtr).length ∧
      growLoop 1 0 (([7, 8, 9] : List RenderTexturePtr).length % UINT32_RANGE) [7, 8, 9]
        = some [7, 8, 9] ∧
      ∃ r, bindSurface acceptAll 0 ⟨[7, 8, 9], (), []⟩ 1 5 = some r ∧
        getBoundSurfaceList r.1 = [7, 5, 9] ∧
        (getBoundSurfaceList r.1).length = 3 ∧
        (getBoundSurfaceList r.1)[1]? = some 5 ∧
        (∀ j, j ≠ 1 → (getBoundSurfaceList r.1)[j]? = ([7, 8, 9] : List RenderTexturePtr)[j]?) :=
  ⟨by decide, by decide,
   bindSurface_in_range acceptAll ⟨[7, 8, 9], (), []⟩ 1 5 0 (by decide) (by decide)⟩

theorem applyOp_bind_some {β : Type} (be : Backend β) (fuel : Nat) (s t : MultiRenderTarget β)
    (a : Nat) (T : RenderTexturePtr) (h : applyOp be fuel s (Op.bindSurface a T) = some t) :
    ∃ r, bindSurface be fuel s a T = some r ∧ r.1 = t := by
  simp only [applyOp] at h
  cases hb : bindSurface be fuel s a T with
  | none => rw [hb] at h; simp at h
  | some r =>
    rw [hb] at h
    simp only [Option.map_some', Option.some.injEq] at h
    exact ⟨r, rfl, h⟩

theorem unbindSurface_length {β : Type} (be : Backend β) (s : MultiRenderTarget β) (i : Nat) :
    (unbindSurface be s i).1.mBoundSurfaces.length = s.mBoundSurfaces.length := by
  unfold unbindSurface
  dsimp only
  split
  · rw [List.length_set]
  · rfl

theorem unbindSurface_stores_null {β : Type} (be : Backend β) (s : MultiRenderTarget β) (i : Nat)
    (hn : s.mBoundSurfaces.length < UINT32_RANGE) (hi : i < s.mBoundSurfaces.length) :
    (unbindSurface be s i).1.mBoundSurfaces = s.mBoundSurfaces.set i 0 := by
  unfold unbindSurface
  dsimp only
  rw [if_pos (by rw [Nat.mod_eq_of_lt hn]; exact hi)]

theorem getBoundSurface_state {β : Type} (s : MultiRenderTarget β) (i : Nat) :
    (getBoundSurface s i).1 = s := by
  unfold getBoundSurface
  split <;> rfl

theorem applyOp_length_le {β : Type} (be : Backend β) (fuel : Nat) (s t : MultiRenderTarget β)
    (op : Op) (h : applyOp be fuel s op = some t) :
    s.mBoundSurfaces.length ≤ t.mBoundSurfaces.length := by
  cases op with
  | bindSurface a T =>
    obtain ⟨r, hr, rfl⟩ := applyOp_bind_some be fuel s t a T h
    obtain ⟨hl, -⟩ := bindSurface_some be fuel s a T r hr
    rw [hl, List.length_set, List.length_append]
    omega
  | unbindSurface a =>
    simp only [applyOp, Option.some.injEq] at h
    rw [← h, unbindSurface_length]
  | getBoundSurface a =>
    simp only [applyOp, Option.some.injEq] at h
    rw [← h, getBoundSurface_state]
  | getBoundSurfaceList =>
    simp only [applyOp, Option.some.injEq] at h
    rw [h]
  | suggestPixelFormat =>
    simp only [applyOp, Option.some.injEq] at h
    rw [h]

theorem expectedSize_cons_bind (a : Nat) (T : RenderTexturePtr) (ops : List Op) :
    expectedSize (Op.bindSurface a T :: ops) = max (a + 1) (expectedSize ops) := by
  unfold expectedSize
  simp only [largestBound]
  cases largestBound ops with
  | none => simp
  | some m => simp only [Nat.max_def]; split <;> split <;> omega

theorem runOps_length {β : Type} (be : Backend β) (fuel : Nat) :
    ∀ (ops : List Op) (s t : MultiRenderTarget β), s.mBoundSurfaces.length < UINT32_RANGE →
      runOps be fuel s ops = some t →
      t.mBoundSurfaces.length = max s.mBoundSurfaces.length (expectedSize ops) ∧
        t.mBoundSurfaces.length < UINT32_RANGE := by
  intro ops
  induction ops with
  | nil =>
    intro s t hs h
    simp only [runOps, Option.some.injEq] at h
    subst h
    exact ⟨by simp [expectedSize, largestBound], hs⟩
  | cons op ops ih =>
    intro s t hs h
    unfold runOps at h
    cases hop : applyOp be fuel s op with
    | none => rw [hop] at h; simp at h
    | some s1 =>
      rw [hop] at h
      dsimp only at h
      cases op with
      | bindSurface a T =>
        obtain ⟨r, hr, rfl⟩ := applyOp_bind_some be fuel s s1 a T hop
        obtain ⟨hl, -, -, -, hdone⟩ := bindSurface_some be fuel s a T r hr
        rw [Nat.mod_eq_of_lt hs] at hl hdone
        have hlen : r.1.mBoundSurfaces.length = max s.mBoundSurfaces.length (a + 1) := by
          rw [hl, List.length_set, List.length_append, List.length_replicate]
          omega
        have hlt : r.1.mBoundSurfaces.length < UINT32_RANGE := by omega
        obtain ⟨h1, h2⟩ := ih r.1 t hlt h
        refine ⟨?_, h2⟩
        rw [h1, hlen, expectedSize_cons_bind]
        omega
      | unbindSurface a =>
        simp only [applyOp, Option.some.injEq] at hop
        have hlen := unbindSurface_length be s a
        rw [hop] at hlen
        obtain ⟨h1, h2⟩ := ih s1 t (by omega) h
        exact ⟨by rw [h1, hlen]; rfl, h2⟩
      | getBoundSurface a =>
        simp only [applyOp, Option.some.injEq] at hop
        rw [getBoundSurface_state] at hop
        subst hop
        exact ih s t hs h
      | getBoundSurfaceList =>
        simp only [applyOp, Option.some.injEq] at hop
        subst hop
        exact ih s t hs h
      | suggestPixelFormat =>
        simp only [applyOp, Option.some.injEq] at hop
        subst hop
        exact ih s t hs h

theorem runOps_total {β : Type} (be : Backend β) (fuel : Nat) :
    ∀ (ops : List Op) (s : MultiRenderTarget β), s.mBoundSurfaces.length < UINT32_RANGE →
      (∀ a T, Op.bindSurface a T ∈ ops → a + 1 < UINT32_RANGE ∧ a + 1 ≤ fuel) →
      ∃ t, runOps be fuel s ops = some t := by
  intro ops
  induction ops with
  | nil => intro s _ _; exact ⟨s, rfl⟩
  | cons op ops ih =>
    intro s hs hops
    have hrest : ∀ a T, Op.bindSurface a T ∈ ops → a + 1 < UINT32_RANGE ∧ a + 1 ≤ fuel :=
      fun a T hm => hops a T (List.mem_cons_of_mem _ hm)
    have hstep : ∃ s1, applyOp be fuel s op = some s1 := by
      cases op with
      | bindSurface a T =>
        obtain ⟨h1, h2⟩ := hops a T (List.mem_cons_self _ _)
        obtain ⟨r, hr⟩ := bindSurface_enough be fuel s a T h1 (by omega)
        exact ⟨r.1, by simp only [applyOp, hr, Option.map_some']⟩
      | unbindSurface a => exact ⟨_, rfl⟩
      | getBoundSurface a => exact ⟨_, rfl⟩
      | getBoundSurfaceList => exact ⟨_, rfl⟩
      | suggestPixelFormat => exact ⟨_, rfl⟩
    obtain ⟨s1, hs1⟩ := hstep
    have hs1lt : s1.mBoundSurfaces.length < UINT32_RANGE := by
      have h1 : runOps be fuel s [op] = some s1 := by
        simp only [runOps, hs1]
      exact (runOps_length be fuel [op] s s1 hs h1).2
    obtain ⟨t, ht⟩ := ih s1 hs1lt hrest
    exact ⟨t, by unfold runOps; rw [hs1]; exact ht⟩

theorem bind_le_expectedSize (a : Nat) (T : RenderTexturePtr) :
    ∀ ops : List Op, Op.bindSurface a T ∈ ops → a + 1 ≤ expectedSize ops := by
  intro ops
  induction ops with
  | nil => intro h; simp at h
  | cons op ops ih =>
    intro h
    rcases List.mem_cons.mp h with h | h
    · subst h
      rw [expectedSize_cons_bind]
      omega
    · have := ih h
      cases op with
      | bindSurface b U => rw [expectedSize_cons_bind]; omega
      | unbindSurface b => exact this
      | getBoundSurface b => exact this
      | getBoundSurfaceList => exact this
      | suggestPixelFormat => exact this

/-- C18: a call of `bindSurface`, `unbindSurface`, `getBoundSurface`,
`getBoundSurfaceList` or `suggestPixelFormat` that comes back leaves a list at
least as long as before. After a sequence of such calls on a new object the size
is 0 when no `bindSurface` was called, and otherwise one more than the largest
attachment index passed to `bindSurface`. The sequence does come back when every
index passed to `bindSurface` is below `2^32 - 1` and the fuel is at least the
expected size. -/
theorem size_never_decreases {β : Type} (be : Backend β) (fuel : Nat)
    (s t : MultiRenderTarget β) (op : Op) (b : β) (ops : List Op) (u : MultiRenderTarget β) :
    (applyOp be fuel s op = some t → s.mBoundSurfaces.length ≤ t.mBoundSurfaces.length) ∧
      (runOps be fuel (MultiRenderTarget.fresh b) ops = some u →
        u.mBoundSurfaces.length = expectedSize ops ∧
        (largestBound ops = none → u.mBoundSurfaces.length = 0) ∧
        (∀ m, largestBound ops = some m → u.mBoundSurfaces.length = 1 + m)) ∧
      ((∀ a T, Op.bindSurface a T ∈ ops → a + 1 < UINT32_RANGE) → expectedSize ops ≤ fuel →
        ∃ v, runOps be fuel (MultiRenderTarget.fresh b) ops = some v) := by
  refine ⟨applyOp_length_le be fuel s t op, ?_, ?_⟩
  · intro h
    have hlen : u.mBoundSurfaces.length = expectedSize ops := by
      have := (runOps_length be fuel ops (MultiRenderTarget.fresh b) u UINT32_RANGE_pos h).1
      rw [this]
      exact Nat.max_eq_right (Nat.zero_le _)
    refine ⟨hlen, ?_, ?_⟩
    · intro hnone
      rw [hlen]
      unfold expectedSize
      rw [hnone]
    · intro m hm
      rw [hlen]
      unfold expectedSize
      rw [hm]
      exact Nat.add_comm m 1
  · intro hops hfuel
    refine runOps_total be fuel ops (MultiRenderTarget.fresh b) UINT32_RANGE_pos ?_
    intro a T hm
    exact ⟨hops a T hm, Nat.le_trans (bind_le_expectedSize a T ops hm) hfuel⟩

theorem size_never_decreases_witness :
    applyOp acceptAll 3 ⟨[7], (), []⟩ (Op.bindSurface 2 5)
        = some ⟨[7, 0, 5], (), [HookCall.bindSurfaceImpl [7, 0, 5] 2 5]⟩ ∧
      ([7] : List RenderTexturePtr).length ≤ ([7, 0, 5] : List RenderTexturePtr).length ∧
      largestBound [Op.bindSurface 2 5, Op.unbindSurface 7, Op.bindSurface 0 9,
        Op.getBoundSurface 9, Op.unbindSurface 2, Op.suggestPixelFormat] = some 2 ∧
      (∃ v, runOps acceptAll 3 (MultiRenderTarget.fresh ())
          [Op.bindSurface 2 5, Op.unbindSurface 7, Op.bindSurface 0 9,
            Op.getBoundSurface 9, Op.unbindSurface 2, Op.suggestPixelFormat] = some v ∧
        v.mBoundSurfaces = [9, 0, 0] ∧ v.mBoundSurfaces.length = 1 + 2) ∧
      (∀ a T, Op.bindSurface a T ∈ [Op.bindSurface 2 5, Op.unbindSurface 7] →
        a + 1 < UINT32_RANGE) ∧
      expectedSize [Op.bindSurface 2 5, Op.unbindSurface 7] ≤ 3 ∧
      (∃ v, runOps acceptAll 3 (MultiRenderTarget.fresh ())
          [Op.bindSurface 2 5, Op.unbindSurface 7] = some v) :=
  ⟨by decide,
   (size_never_decreases acceptAll 3 ⟨[7], (), []⟩
      ⟨[7, 0, 5], (), [HookCall.bindSurfaceImpl [7, 0, 5] 2 5]⟩ (Op.bindSurface 2 5) () []
      (MultiRenderTarget.fresh ())).1 (by decide),
   by decide,
   ⟨⟨[9, 0, 0], (), [HookCall.bindSurfaceImpl [0, 0, 5] 2 5, HookCall.unbindSurfaceImpl [0, 0, 5] 7,
        HookCall.bindSurfaceImpl [9, 0, 5] 0 9, HookCall.unbindSurfaceImpl [9, 0, 0] 2]⟩,
     by decide, rfl,
     ((size_never_decreases acceptAll 3 (MultiRenderTarget.fresh ()) (MultiRenderTarget.fresh ())
        Op.suggestPixelFormat ()
        [Op.bindSurface 2 5, Op.unbindSurface 7, Op.bindSurface 0 9,
          Op.getBoundSurface 9, Op.unbindSurface 2, Op.suggestPixelFormat]
        ⟨[9, 0, 0], (), [HookCall.bindSurfaceImpl [0, 0, 5] 2 5,
          HookCall.unbindSurfaceImpl [0, 0, 5] 7, HookCall.bindSurfaceImpl [9, 0, 5] 0 9,
          HookCall.unbindSurfaceImpl [9, 0, 0] 2]⟩).2.1 (by decide)).2.2 2 (by decide)⟩,
   (fun a T h => by
      simp only [List.mem_cons, Op.bindSurface.injEq, List.not_mem_nil, reduceCtorEq,
        or_false] at h
      obtain ⟨rfl, -⟩ := h
      decide),
   by decide,
   (size_never_decreases acceptAll 3 (MultiRenderTarget.fresh ()) (MultiRenderTarget.fresh ())
      Op.suggestPixelFormat () [Op.bindSurface 2 5, Op.unbindSurface 7]
      (MultiRenderTarget.fresh ())).2.2
      (fun a T h => by
        simp only [List.mem_cons, Op.bindSurface.injEq, List.not_mem_nil, reduceCtorEq,
          or_false] at h
        obtain ⟨rfl, -⟩ := h
        decide)
      (by decide)⟩

/-- C19, at the largest attachment index: on the list `[7, 8]`, `bindSurface(2^32 - 1, T)`
does not come back on any fuel, so `bindSurface` followed by `unbindSurface` yields
no list of size `max(2, 2^32)`. -/
theorem bind_max_then_unbind_yields_nothing :
    ¬ ∃ fuel r, bindSurface acceptAll fuel ⟨[7, 8], (), []⟩ (UINT32_RANGE - 1) 5 = some r ∧
      (getBoundSurfaceList (unbindSurface acceptAll r.1 (UINT32_RANGE - 1)).1).length
        = max 2 (UINT32_RANGE - 1 + 1) := by
  rintro ⟨fuel, r, h, -⟩
  rw [bindSurface_max_none] at h
  exact Option.noConfusion h

/-- C19, amended: for a list of size `n` (below `2^32`, as the list of every object
is), an attachment index `i < 2^32 - 1` and a target `T`, `bindSurface(i, T)`
comes back (on any fuel of at least `i + 1 - n`), and after the `unbindSurface(i)`
that follows the list has size `max(n, i + 1)`, slot `i` is null and every slot
`j < n` other than `i` is as before the bind. For `i >= n` the list is the old
one followed by `i + 1 - n` null slots, so it is not the old list. A second
`unbindSurface(i)` leaves the list as it is. -/
theorem bind_then_unbind {β : Type} (be : Backend β) (s : MultiRenderTarget β)
    (i : Nat) (T : RenderTexturePtr) (fuel : Nat)
    (hn : s.mBoundSurfaces.length < UINT32_RANGE) (hi : i + 1 < UINT32_RANGE)
    (hfuel : i + 1 - s.mBoundSurfaces.length ≤ fuel) :
    ∃ r u, bindSurface be fuel s i T = some r ∧
      u = getBoundSurfaceList (unbindSurface be r.1 i).1 ∧
      u.length = max s.mBoundSurfaces.length (i + 1) ∧
      u[i]? = some 0 ∧
      (∀ j, j < s.mBoundSurfaces.length → j ≠ i → u[j]? = s.mBoundSurfaces[j]?) ∧
      (s.mBoundSurfaces.length ≤ i →
        u = s.mBoundSurfaces ++ List.replicate (i + 1 - s.mBoundSurfaces.length) 0 ∧
        u ≠ s.mBoundSurfaces) ∧
      getBoundSurfaceList (unbindSurface be (unbindSurface be r.1 i).1 i).1 = u := by
  have hmod : s.mBoundSurfaces.length % UINT32_RANGE = s.mBoundSurfaces.length :=
    Nat.mod_eq_of_lt hn
  obtain ⟨r, hr⟩ := bindSurface_enough be fuel s i T hi (by rw [hmod]; exact hfuel)
  obtain ⟨hl, -⟩ := bindSurface_some be fuel s i T r hr
  rw [hmod] at hl
  have hlen1 : r.1.mBoundSurfaces.length = max s.mBoundSurfaces.length (i + 1) := by
    rw [hl, List.length_set, List.length_append, List.length_replicate]
    omega
  have hlt1 : r.1.mBoundSurfaces.length < UINT32_RANGE := by omega
  have hi1 : i < r.1.mBoundSurfaces.length := by omega
  have hu : getBoundSurfaceList (unbindSurface be r.1 i).1 = r.1.mBoundSurfaces.set i 0 :=
    unbindSurface_stores_null be r.1 i hlt1 hi1
  have hulen : (getBoundSurfaceList (unbindSurface be r.1 i).1).length
      = r.1.mBoundSurfaces.length := unbindSurface_length be r.1 i
  have hui : (getBoundSurfaceList (unbindSurface be r.1 i).1)[i]? = some 0 := by
    rw [hu, List.getElem?_set_self hi1]
  have hu2 : getBoundSurfaceList (unbindSurface be r.1 i).1
      = (s.mBoundSurfaces ++ List.replicate (i + 1 - s.mBoundSurfaces.length) 0).set i 0 := by
    rw [hu, hl, List.set_set]
  refine ⟨r, _, hr, rfl, by rw [hulen, hlen1], hui, ?_, ?_, ?_⟩
  · intro j hj hne
    rw [hu2, List.getElem?_set_ne (Ne.symm hne), List.getElem?_append_left hj]
  · intro hge
    have hslot : (s.mBoundSurfaces
        ++ List.replicate (i + 1 - s.mBoundSurfaces.length) (0 : RenderTexturePtr))[i]?
        = some 0 := by
      rw [List.getElem?_append_right hge, List.getElem?_replicate, if_pos (by omega)]
    have heq : getBoundSurfaceList (unbindSurface be r.1 i).1
        = s.mBoundSurfaces ++ List.replicate (i + 1 - s.mBoundSurfaces.length) 0 := by
      rw [hu2]
      exact set_eq_self_of_getElem? _ i 0 hslot
    refine ⟨heq, ?_⟩
    intro hsame
    have hlen := congrArg List.length hsame
    rw [hulen, hlen1] at hlen
    omega
  · have hlt2 : (unbindSurface be r.1 i).1.mBoundSurfaces.length < UINT32_RANGE := by
      rw [unbindSurface_length]; exact hlt1
    have hi2 : i < (unbindSurface be r.1 i).1.mBoundSurfaces.length := by
      rw [unbindSurface_length]; exact hi1
    have hv : getBoundSurfaceList (unbindSurface be (unbindSurface be r.1 i).1 i).1
        = (unbindSurface be r.1 i).1.mBoundSurfaces.set i 0 :=
      unbindSurface_stores_null be _ i hlt2 hi2
    rw [hv]
    exact set_eq_self_of_getElem? _ i 0 hui

theorem bind_then_unbind_witness :
    ([7, 8] : List RenderTexturePtr).length < UINT32_RANGE ∧ 3 + 1 < UINT32_RANGE ∧
      3 + 1 - ([7, 8] : List RenderTexturePtr).length ≤ 2 ∧
      (getBoundSurfaceList (unbindSurface acceptAll
        ⟨[7, 8, 0, 5], (), [HookCall.bindSurfaceImpl [7, 8, 0, 5] 3 5]⟩ 3).1) = [7, 8, 0, 0] ∧
      ∃ r u, bindSurface acceptAll 2 ⟨[7, 8], (), []⟩ 3 5 = some r ∧
        u = getBoundSurfaceList (unbindSurface acceptAll r.1 3).1 ∧
        u.length = max ([7, 8] : List RenderTexturePtr).length (3 + 1) ∧
        u[3]? = some 0 ∧
        (∀ j, j < ([7, 8] : List RenderTexturePtr).length → j ≠ 3 →
          u[j]? = ([7, 8] : List RenderTexturePtr)[j]?) ∧
        (([7, 8] : List RenderTexturePtr).length ≤ 3 →
          u = [7, 8] ++ List.replicate (3 + 1 - ([7, 8] : List RenderTexturePtr).length) 0 ∧
          u ≠ [7, 8]) ∧
        getBoundSurfaceList (unbindSurface acceptAll (unbindSurface acceptAll r.1 3).1 3).1 = u :=
  ⟨by decide, by decide, by decide, by decide,
   bind_then_unbind acceptAll ⟨[7, 8], (), []⟩ 3 5 2 (by decide) (by decide) (by decide)⟩

end CamelotEngine
